import Mathlib

/-!
Shallow embedding of the kicksdb-netlify-demo serverless handlers.

JavaScript numbers are modelled as exact rationals, JSON scalar values by
the type JVal, and an absent object field by none. Fallible operations,
such as parseFloat producing NaN, return Option. Ambient effects, namely
the clock Date.now and Math.random, are passed to the embedded functions
explicitly, so that every definition is a pure function of its inputs.

The Batteries rational arithmetic is irreducible by default; restoring
the default reducibility lets concrete evaluations go through decide.
-/

attribute [local semireducible] Rat.mul Rat.inv Rat.add Rat.sub

namespace Js

/-- A JSON scalar value as JavaScript sees it. An absent (undefined)
field is modelled by wrapping in Option at the use site. -/
inductive JVal where
  | vnum (q : ℚ)
  | vstr (s : String)
  | vbool (b : Bool)
  | vnull
deriving DecidableEq

/-- JavaScript truthiness of a defined value: 0, the empty string, false
and null are falsy. -/
def truthyV : JVal → Bool
  | .vnum q => q != 0
  | .vstr s => s != ""
  | .vbool b => b
  | .vnull => false

/-- JavaScript truthiness of a possibly undefined value. -/
def truthy : Option JVal → Bool
  | none => false
  | some v => truthyV v

/-- The operator a || b for a possibly undefined a and a defined b. -/
def orD (a : Option JVal) (b : JVal) : JVal :=
  match a with
  | some v => if truthyV v then v else b
  | none => b

/-- The operator a || b when both operands may be undefined. -/
def orO (a b : Option JVal) : Option JVal :=
  if truthy a then a else b

/-- The operator a || b on a numeric field: 0 and an absent value both
fall through to the right operand. -/
def qOr (a : Option ℚ) (b : ℚ) : ℚ :=
  match a with
  | some q => if q = 0 then b else q
  | none => b

/-- The operator a || b on possibly undefined strings: the empty string
falls through. -/
def strOr (a : Option String) (b : String) : String :=
  match a with
  | some s => if s = "" then b else s
  | none => b

/-- Truthiness of a possibly undefined string field. -/
def strTruthy (a : Option String) : Bool :=
  match a with
  | some s => s != ""
  | none => false

/-- Numeric value of a digit character. -/
def digitVal (c : Char) : ℕ := c.toNat - 48

/-- Value of a digit run read left to right. -/
def digitsVal (cs : List Char) : ℕ := cs.foldl (fun a c => a * 10 + digitVal c) 0

/-- Parse an optionally signed decimal numeral prefix from a character
list, returning the value and the unconsumed suffix; none models NaN.
Exponent suffixes and hexadecimal forms are not modelled; no claim
depends on them. -/
def parseSignedDec (cs : List Char) : Option (ℚ × List Char) :=
  let signed : Bool × List Char :=
    match cs with
    | '-' :: rest => (true, rest)
    | '+' :: rest => (false, rest)
    | _ => (false, cs)
  let neg := signed.1
  let cs1 := signed.2
  let intPart := cs1.takeWhile Char.isDigit
  let rest1 := cs1.dropWhile Char.isDigit
  let hasDot : Bool := match rest1 with | '.' :: _ => true | _ => false
  let fracPart := if hasDot then (rest1.drop 1).takeWhile Char.isDigit else []
  let rest2 := if hasDot then (rest1.drop 1).dropWhile Char.isDigit else rest1
  if intPart.isEmpty ∧ fracPart.isEmpty then none
  else
    let mag : ℚ := (digitsVal intPart : ℚ) + (digitsVal fracPart : ℚ) / (10 : ℚ) ^ fracPart.length
    some ((if neg then -mag else mag), rest2)

/-- parseFloat on a string: skip leading whitespace, then read a decimal
numeral prefix, ignoring any trailing garbage; none models NaN. -/
def parseJsFloat (s : String) : Option ℚ :=
  (parseSignedDec (s.toList.dropWhile Char.isWhitespace)).map (fun r => r.1)

/-- trim on a character list; JavaScript strings are modelled by their
character lists so that every operation reduces. -/
def trimChars (cs : List Char) : List Char :=
  ((cs.dropWhile Char.isWhitespace).reverse.dropWhile Char.isWhitespace).reverse

/-- split on a separator character, as String.prototype.split with a
one-character pattern: an empty input yields one empty segment. -/
def splitOnChar (sep : Char) (cs : List Char) : List (List Char) :=
  cs.foldr
    (fun c acc =>
      if c = sep then [] :: acc
      else
        match acc with
        | [] => [[c]]
        | g :: gs => (c :: g) :: gs)
    [[]]

/-- Number coercion of a string, as used by the comparison operators: an
all-whitespace string is 0, otherwise the whole trimmed string must be a
decimal numeral. -/
def strToNum (s : String) : Option ℚ :=
  match trimChars s.toList with
  | [] => some 0
  | t =>
    match parseSignedDec t with
    | some (q, []) => some q
    | _ => none

/-- parseFloat applied to a field value; parseFloat of undefined, null
and booleans is NaN, a numeric argument comes back unchanged. -/
def parseFloatV : Option JVal → Option ℚ
  | some (.vnum q) => some q
  | some (.vstr s) => parseJsFloat s
  | _ => none

/-- The comparison v > 0 of a field value under JavaScript coercion; a
comparison against undefined or an unparseable string is false. -/
def gtZero : Option JVal → Bool
  | some (.vnum q) => decide (0 < q)
  | some (.vstr s) => match strToNum s with | some q => decide (0 < q) | none => false
  | some (.vbool b) => b
  | some .vnull => false
  | none => false

/-- toFixed(2) followed by parseFloat: round to two decimal places, with
the tie broken upward as in the ECMAScript pick-the-larger rule. -/
def toFixed2 (q : ℚ) : ℚ := ((⌊q * 100 + 1 / 2⌋ : ℤ) : ℚ) / 100

/-- Decimal rendering of a rational, matching the JavaScript rendering of
a number whose value has a finite decimal expansion of at most twelve
places; every number any claim touches does. -/
def decimalString (q : ℚ) : String :=
  let sign := if q < 0 then "-" else ""
  let a : ℚ := |q|
  match (List.range 13).find? (fun k => (a * (10 : ℚ) ^ k).den = 1) with
  | none => sign ++ toString a.num ++ "/" ++ toString a.den
  | some k =>
    if k = 0 then sign ++ toString a.num
    else
      let ds0 := toString (a * (10 : ℚ) ^ k).num
      let ds := if ds0.length ≤ k then
          String.mk (List.replicate (k + 1 - ds0.length) '0') ++ ds0
        else ds0
      sign ++ String.mk (ds.toList.take (ds.toList.length - k)) ++ "." ++
        String.mk (ds.toList.drop (ds.toList.length - k))

/-- String interpolation of a possibly undefined value, as performed by a
template literal. -/
def display : Option JVal → String
  | none => "undefined"
  | some (.vnum q) => decimalString q
  | some (.vstr s) => s
  | some (.vbool true) => "true"
  | some (.vbool false) => "false"
  | some .vnull => "null"

/-- toLowerCase of a string. -/
def lowerStr (s : String) : String := String.mk (s.toList.map Char.toLower)

/-- Boolean prefix test on character lists. -/
def isPrefixB : List Char → List Char → Bool
  | [], _ => true
  | _ :: _, [] => false
  | a :: as, b :: bs => a == b && isPrefixB as bs

/-- Substring containment of the needle in the haystack. -/
def containsSub (needle : List Char) : List Char → Bool
  | [] => needle.isEmpty
  | c :: t => isPrefixB needle (c :: t) || containsSub needle t

/-- s.includes(sub). -/
def includes (s sub : String) : Bool := containsSub sub.toList s.toList

/-- s.replace(pat, empty) limited to the first occurrence, which is what
String.prototype.replace does with a string pattern. -/
def removeFirst (pat : List Char) : List Char → List Char
  | [] => []
  | c :: t =>
    if isPrefixB pat (c :: t) then (c :: t).drop pat.length
    else c :: removeFirst pat t

/-- new Date(now).toISOString(): the exact ISO-8601 rendering is
irrelevant to every claim; what matters is that distinct capture times
render to distinct strings, so the timestamp is embedded verbatim. -/
def isoString (now : ℤ) : String := "iso:" ++ toString now

end Js

namespace Kicks

/-! The KicksDB handlers of src/unnamed/part_000 (fallback policy) and of
the second document of src/unnamed/part_001 (strict policy). The two
documents share their helper code verbatim, so the payload structures and
the per-entry size builders are defined once here. -/

/-- One entry of a variants or sizes array. Absent fields are none. -/
structure VariantJson where
  size : Option Js.JVal := none
  us_size : Option Js.JVal := none
  usSize : Option Js.JVal := none
  size_us : Option Js.JVal := none
  sizeUs : Option Js.JVal := none
  price : Option Js.JVal := none
  lowest_ask : Option Js.JVal := none
  lowestAsk : Option Js.JVal := none
  ask : Option Js.JVal := none
  available : Option Js.JVal := none
  stock : Option Js.JVal := none
deriving DecidableEq

/-- One entry of an asks or bids array. -/
structure AskJson where
  size : Option Js.JVal := none
  shoe_size : Option Js.JVal := none
  shoeSize : Option Js.JVal := none
  price : Option Js.JVal := none
  amount : Option Js.JVal := none
deriving DecidableEq

/-- One entry of the media array; only its imageUrl field is read. -/
structure MediaEntry where
  imageUrl : Option Js.JVal := none
deriving DecidableEq

/-- The upstream JSON payload, restricted to the fields the normalizers
read. -/
structure Payload where
  title : Option Js.JVal := none
  name : Option Js.JVal := none
  product_name : Option Js.JVal := none
  productName : Option Js.JVal := none
  image : Option Js.JVal := none
  thumbnail : Option Js.JVal := none
  imageUrl : Option Js.JVal := none
  media : Option (List MediaEntry) := none
  images : Option (List Js.JVal) := none
  updated_at : Option Js.JVal := none
  lastUpdated : Option Js.JVal := none
  last_updated : Option Js.JVal := none
  retailPrice : Option Js.JVal := none
  msrp : Option Js.JVal := none
  basePrice : Option Js.JVal := none
  lowestAsk : Option Js.JVal := none
  price : Option Js.JVal := none
  averagePrice : Option Js.JVal := none
  variants : Option (List VariantJson) := none
  sizes : Option (List VariantJson) := none
  asks : Option (List AskJson) := none
  bids : Option (List AskJson) := none
deriving DecidableEq

/-- A normalized size entry; price none models NaN. -/
structure SizeEntry where
  size : Js.JVal
  price : Option ℚ
  available : Bool
deriving DecidableEq

/-- cleanSku: split on the slashes, trim each part, join back. -/
def cleanSku (sku : String) : String :=
  String.mk (List.intercalate ['/']
    ((Js.splitOnChar '/' sku.toList).map Js.trimChars))

/-- The entry builder of the variants and sizes branches. The template
label US interpolating size_us or sizeUs is always a nonempty string, so
the trailing Unknown alternative of the source chain is unreachable in
these branches, exactly as in the JavaScript. -/
def variantEntry (rp : ℚ) (v : VariantJson) : SizeEntry :=
  { size := Js.orD v.size (Js.orD v.us_size (Js.orD v.usSize
      (Js.orD (some (.vstr ("US " ++ Js.display (Js.orO v.size_us v.sizeUs))))
        (.vstr "Unknown"))))
    price := Js.parseFloatV (some (Js.orD v.price (Js.orD v.lowest_ask
      (Js.orD v.lowestAsk (Js.orD v.ask (.vnum rp))))))
    available := !(v.available == some (.vbool false)) &&
      (v.stock == none || Js.gtZero v.stock) }

/-- The entry builder of the asks and bids branches: an existing offer is
always available. -/
def askEntry (rp : ℚ) (a : AskJson) : SizeEntry :=
  { size := Js.orD a.size (Js.orD a.shoe_size (Js.orD a.shoeSize (.vstr "Unknown")))
    price := Js.parseFloatV (some (Js.orD a.price (Js.orD a.amount (.vnum rp))))
    available := true }

/-- A price field qualifies when it is truthy and parses to a number. -/
def priceOk (v : Option Js.JVal) : Bool := Js.truthy v && (Js.parseFloatV v).isSome

/-- The numeric value taken from a qualifying price field. -/
def priceOf (v : Option Js.JVal) : ℚ := (Js.parseFloatV v).getD 0

/-- The post-extraction filter: drop entries with a falsy or Unknown
label or a NaN price. It runs before the empty check in both documents. -/
def filterSizes (l : List SizeEntry) : List SizeEntry :=
  l.filter fun e => Js.truthyV e.size && !(e.size == .vstr "Unknown") && e.price.isSome

/-- data.media, first element, imageUrl, with optional chaining. -/
def mediaFirstImage (m : Option (List MediaEntry)) : Option Js.JVal :=
  (m.bind List.head?).bind (fun e => e.imageUrl)

/-- data.images, first element, with optional chaining. -/
def imagesFirst (m : Option (List Js.JVal)) : Option Js.JVal :=
  m.bind List.head?

/-- Outcome of one fetch of an endpoint candidate. -/
inductive FetchResult where
  | threw
  | resp (ok : Bool) (body : String)
deriving DecidableEq

/-- Does the trimmed body start with a JSON opener? -/
def startsJson (s : String) : Bool :=
  match Js.trimChars s.toList with
  | c :: _ => c == '{' || c == '['
  | [] => false

/-- Does the trimmed body start with an HTML opener? -/
def startsHtml (s : String) : Bool :=
  match Js.trimChars s.toList with
  | c :: _ => c == '<'
  | [] => false

end Kicks

namespace P0

/-! The part_000 handler: fallback policy, six-endpoint loop. -/

open Kicks

/-- The normalized product of part_000. -/
structure Product where
  sku : String
  title : Js.JVal
  image : Js.JVal
  lastUpdated : Js.JVal
  regularPrice : ℚ
  sizes : List SizeEntry
deriving DecidableEq

/-- The stock placeholder image of part_000. -/
def placeholderImage : String :=
  "https://images.unsplash.com/photo-1542291026-7eec264c27ff?w=500&h=500&fit=crop"

/-- The regular price fallback chain of part_000: first truthy field that
parses wins, otherwise the default 120. -/
def resolveRegularPrice (d : Payload) : ℚ :=
  if priceOk d.retailPrice then priceOf d.retailPrice
  else if priceOk d.msrp then priceOf d.msrp
  else if priceOk d.basePrice then priceOf d.basePrice
  else if priceOk d.lowestAsk then priceOf d.lowestAsk
  else if priceOk d.price then priceOf d.price
  else if priceOk d.averagePrice then priceOf d.averagePrice
  else 120

/-- The shape cascade of part_000: variants, sizes, asks, bids, common
sizes fallback. The bids branch of the source is the ask builder verbatim. -/
def rawSizes (d : Payload) (rp : ℚ) : List SizeEntry :=
  match d.variants, d.sizes, d.asks, d.bids with
  | some vs, _, _, _ => vs.map (variantEntry rp)
  | none, some ss, _, _ => ss.map (variantEntry rp)
  | none, none, some as, _ => as.map (askEntry rp)
  | none, none, none, some bs => bs.map (askEntry rp)
  | none, none, none, none =>
    ["US 7", "US 8", "US 8.5", "US 9", "US 9.5", "US 10", "US 10.5", "US 11",
      "US 12"].map fun s => ⟨.vstr s, some rp, true⟩

/-- The default sizes created when every extracted entry was filtered out. -/
def defaultSizes (rp : ℚ) : List SizeEntry :=
  ["US 8", "US 9", "US 10", "US 11"].map fun s => ⟨.vstr s, some rp, true⟩

/-- normalizeKicksDbResponse of part_000. The capture time now enters
only through the lastUpdated fallback. -/
def normalizeKicksDbResponse (data : Payload) (sku : String) (now : ℤ) : Product :=
  let title := Js.orD data.title (Js.orD data.name (Js.orD data.product_name
    (Js.orD data.productName (.vstr "Unknown Product"))))
  let image := Js.orD data.image (Js.orD data.thumbnail (Js.orD data.imageUrl
    (Js.orD (mediaFirstImage data.media) (Js.orD (imagesFirst data.images)
      (.vstr placeholderImage)))))
  let lastUpdated := Js.orD data.updated_at (Js.orD data.lastUpdated
    (Js.orD data.last_updated (.vstr (Js.isoString now))))
  let regularPrice := resolveRegularPrice data
  let filtered := filterSizes (rawSizes data regularPrice)
  let sizes := if filtered.isEmpty then defaultSizes regularPrice else filtered
  ⟨cleanSku sku, title, image, lastUpdated, regularPrice, sizes⟩

/-- The endpoint loop of part_000: break on the first ok response; a
non-ok response is remembered in the response variable; a thrown fetch
leaves that variable unchanged. The second component instruments the
model with the number of candidates actually fetched. -/
def endpointLoop : List FetchResult → Option (Bool × String) → Option (Bool × String) × ℕ
  | [], last => (last, 0)
  | .threw :: rest, last =>
    let r := endpointLoop rest last
    (r.1, r.2 + 1)
  | .resp ok body :: rest, last =>
    if ok then (some (true, body), 1)
    else
      let r := endpointLoop rest (some (false, body))
      (r.1, r.2 + 1)

/-- Outcome of the part_000 resolution: either the parsed payload of some
candidate, or the synthesized fallback product. -/
inductive Resolution (P : Type) where
  | fallback
  | parsed (p : P)
deriving DecidableEq

/-- The part_000 resolution: the loop accepts any ok response, and only
afterwards is the single accepted body checked for an HTML opener and
then JSON-parsed; both failures abort to the fallback instead of
advancing to the next candidate. -/
def resolve000 {P : Type} (parse : String → Option P) (rs : List FetchResult) :
    Resolution P × ℕ :=
  let r := endpointLoop rs none
  match r.1 with
  | some (true, body) =>
    if startsHtml body then (.fallback, r.2)
    else
      match parse body with
      | some p => (.parsed p, r.2)
      | none => (.fallback, r.2)
  | _ => (.fallback, r.2)

end P0

namespace Strict

/-! The second document of part_001: strict policy (no fallbacks) and the
endpoint cascade that validates each candidate body inside the loop. -/

open Kicks

/-- The normalized product of the strict document; its image may be
undefined since this document has no placeholder. -/
structure ProductS where
  sku : String
  title : Js.JVal
  image : Option Js.JVal
  lastUpdated : Js.JVal
  regularPrice : ℚ
  sizes : List SizeEntry
deriving DecidableEq

/-- The regular price chain of the strict document, accumulating into a
null-initialised variable. -/
def resolveRegularPriceStrict (d : Payload) : Option ℚ :=
  if priceOk d.retailPrice then some (priceOf d.retailPrice)
  else if priceOk d.msrp then some (priceOf d.msrp)
  else if priceOk d.basePrice then some (priceOf d.basePrice)
  else if priceOk d.lowestAsk then some (priceOf d.lowestAsk)
  else if priceOk d.price then some (priceOf d.price)
  else if priceOk d.averagePrice then some (priceOf d.averagePrice)
  else none

/-- The shape cascade of the strict document: no common-sizes fallback
branch, the list simply stays empty when no shape matches. -/
def rawSizesStrict (d : Payload) (rp : ℚ) : List SizeEntry :=
  match d.variants, d.sizes, d.asks, d.bids with
  | some vs, _, _, _ => vs.map (variantEntry rp)
  | none, some ss, _, _ => ss.map (variantEntry rp)
  | none, none, some as, _ => as.map (askEntry rp)
  | none, none, none, some bs => bs.map (askEntry rp)
  | none, none, none, none => []

/-- normalizeKicksDbResponse of the strict document: throwing is modelled
by Except.error. The falsiness test on the accumulated price also throws
on a parsed value of zero, as the JavaScript bang operator does. -/
def normalizeKicksDbStrict (data : Payload) (sku : String) (now : ℤ) :
    Except String ProductS :=
  let title := Js.orD data.title (Js.orD data.name (Js.orD data.product_name
    (Js.orD data.productName (.vstr "Unknown Product"))))
  let image := Js.orO data.image (Js.orO data.thumbnail (Js.orO data.imageUrl
    (Js.orO (mediaFirstImage data.media) (imagesFirst data.images))))
  let lastUpdated := Js.orD data.updated_at (Js.orD data.lastUpdated
    (Js.orD data.last_updated (.vstr (Js.isoString now))))
  match resolveRegularPriceStrict data with
  | none => .error "No valid price found in API response"
  | some rp =>
    if rp = 0 then .error "No valid price found in API response"
    else
      let sizes := filterSizes (rawSizesStrict data rp)
      if sizes.isEmpty then .error "No valid sizes found in API response"
      else .ok ⟨cleanSku sku, title, image, lastUpdated, rp, sizes⟩

/-- Increment the fetch counter of a cascade outcome. -/
def bump {P : Type} (r : Option P × ℕ) : Option P × ℕ := (r.1, r.2 + 1)

/-- The endpoint cascade of the strict document: a thrown fetch, a non-ok
status, a body that does not open like JSON, and a JSON parse failure
each advance to the next candidate; the loop stops at the first candidate
whose body parses. The second component counts the candidates fetched. -/
def tryCandidates {P : Type} (parse : String → Option P) :
    List FetchResult → Option P × ℕ
  | [] => (none, 0)
  | .threw :: rest => bump (tryCandidates parse rest)
  | .resp ok body :: rest =>
    if ok then
      if startsJson body then
        match parse body with
        | some p => (some p, 1)
        | none => bump (tryCandidates parse rest)
      else bump (tryCandidates parse rest)
    else bump (tryCandidates parse rest)

end Strict

namespace SX

/-! The StockX handlers of src/functions/kicksdb.js (two documents) and
the third document of src/unnamed/part_001. They share the variant
shape of the StockX API. -/

/-- A StockX variant. Price-like fields are numeric in every payload the
handlers accept; a string there would raise a TypeError on toFixed in the
source and is outside the modelled domain. -/
structure Variant where
  size : Option Js.JVal := none
  us_size : Option Js.JVal := none
  lowest_ask : Option ℚ := none
  price : Option ℚ := none
  total_asks : Option ℚ := none
  asks : Option ℚ := none
  sales_count_15_days : Option ℚ := none
  sales_count_30_days : Option ℚ := none
  sales_count_60_days : Option ℚ := none
  highest_bid : Option ℚ := none
  total_bids : Option ℚ := none
  last_sale_price : Option ℚ := none
  price_premium : Option ℚ := none
  size_type : Option Js.JVal := none
deriving DecidableEq

/-- A produced size offer. The originalData and stockxData diagnostic
blobs of the source, verbatim copies of variant fields, are not
modelled; no claim concerns them. -/
structure SizeOffer where
  size : String
  price : ℚ
  available : Bool
deriving DecidableEq

/-- The v > 0 test on a numeric field; against undefined it is false. -/
def qGt0 (o : Option ℚ) : Bool :=
  match o with
  | some q => decide (0 < q)
  | none => false

/-- The full shoe ladder shared by the mock generators. -/
def sizeRange17 : List String :=
  ["6.5", "7", "7.5", "8", "8.5", "9", "9.5", "10", "10.5", "11", "11.5",
    "12", "12.5", "13", "13.5", "14", "15"]

/-- generateAllSizesWithAvailability of the first kicksdb.js document.
Math.random is modelled by the stream rand; each iteration draws the
availability sample first and the price variation second. -/
def generateAllSizesWithAvailability (rand : ℕ → ℚ) : List SizeOffer :=
  sizeRange17.enum.map fun iv =>
    let available := decide (2 / 5 < rand (2 * iv.1))
    let priceVariation := rand (2 * iv.1 + 1) * 40 - 20
    { size := "US " ++ iv.2
      price := if available then Js.toFixed2 (120 + priceVariation) else 0
      available := available }

/-- The per-variant offer of extractSizesFromStockXVariants in the first
kicksdb.js document: available whenever the lowest ask is positive. -/
def mkOffer1 (variant : Variant) : SizeOffer :=
  { size := "US " ++ Js.display variant.size
    price := variant.lowest_ask.getD 0
    available := qGt0 variant.lowest_ask }

/-- extractSizesFromStockXVariants of the first kicksdb.js document. -/
def extractSizesFromStockXVariants (rand : ℕ → ℚ)
    (variants : Option (List Variant)) : List SizeOffer :=
  match variants with
  | none => generateAllSizesWithAvailability rand
  | some vs =>
    let sizes := vs.map mkOffer1
    if sizes.isEmpty then generateAllSizesWithAvailability rand else sizes

/-- The hard-coded product name map of the first kicksdb.js document. -/
def getProductNameBySku (sku : String) : String :=
  if sku = "112441113-13/1124D1113-13" then "Anta Kai 1 Jelly"
  else if sku = "112531111S-3/8125C1111S-3/812531111S-3" then "Anta Kai 2 Triple Black"
  else if sku = "112511810S-1/1125A1810S-1/8125A1810S-1/112541810SF-1" then "Anta Kai Hélà White"
  else "Anta Basketball Shoe"

/-- The hard-coded official price map of the first kicksdb.js document. -/
def getOfficialPriceBySku (sku : String) : ℚ :=
  if sku = "112441113-13/1124D1113-13" then 118
  else if sku = "112531111S-3/8125C1111S-3/812531111S-3" then 101
  else if sku = "112511810S-1/1125A1810S-1/8125A1810S-1/112541810SF-1" then 80
  else 120

/-- The hard-coded image map of the first kicksdb.js document; the exact
URL strings are immaterial to every claim, only their distinctness per
key is kept. -/
def getProductImageBySku (sku : String) : String :=
  if sku = "112441113-13/1124D1113-13" then "stockx-img-kai-1-jelly"
  else if sku = "112531111S-3/8125C1111S-3/812531111S-3" then "stockx-img-kai-2-triple-black"
  else if sku = "112511810S-1/1125A1810S-1/8125A1810S-1/112541810SF-1" then "stockx-img-kai-hela-white"
  else "unsplash-placeholder-700x500"

/-- One entry of the traits array. -/
structure Trait where
  trait : String
  value : Option Js.JVal := none
deriving DecidableEq

/-- A StockX product payload, restricted to the fields read by the first
kicksdb.js document. -/
structure SXData where
  sku : Option String := none
  title : Option String := none
  image : Option String := none
  gallery : Option (List String) := none
  variants : Option (List Variant) := none
  min_price : Option ℚ := none
  traits : Option (List Trait) := none
  updated_at : Option String := none
deriving DecidableEq

/-- The product returned by the first kicksdb.js document. The _source
and _features diagnostics are collapsed into the fallback flag; they are
functions of the other fields. -/
structure Product1 where
  sku : String
  title : String
  image : String
  lastUpdated : String
  regularPrice : ℚ
  sizes : List SizeOffer
  fallback : Bool
deriving DecidableEq

/-- normalizeStockXResponse of the first kicksdb.js document. -/
def normalizeStockXResponse (data : SXData) (sku : String) (now : ℤ)
    (rand : ℕ → ℚ) : Product1 :=
  let image := Js.strOr data.image (Js.strOr (data.gallery.bind List.head?)
    (getProductImageBySku sku))
  let title := Js.strOr data.title (getProductNameBySku sku)
  let sizes := extractSizesFromStockXVariants rand data.variants
  let traitPrice := Js.parseFloatV
    (((data.traits.bind (List.find? fun t => t.trait = "Retail Price")).bind
      fun t => t.value))
  let basePrice := Js.qOr data.min_price (Js.qOr traitPrice 120)
  { sku := sku
    title := title
    image := image
    lastUpdated := Js.strOr data.updated_at (Js.isoString now)
    regularPrice := basePrice
    sizes := sizes
    fallback := false }

/-- createStockXMockData of the first kicksdb.js document. -/
def createStockXMockData (sku : String) (now : ℤ) (rand : ℕ → ℚ) : Product1 :=
  { sku := sku
    title := getProductNameBySku sku
    image := getProductImageBySku sku
    lastUpdated := Js.isoString now
    regularPrice := getOfficialPriceBySku sku
    sizes := generateAllSizesWithAvailability rand
    fallback := true }

/-- The slash-split, trimmed, lowercased segments of the requested SKU. -/
def targetParts (targetSku : String) : List String :=
  (Js.splitOnChar '/' (Js.lowerStr targetSku).toList).map
    fun cs => String.mk (Js.trimChars cs)

/-- The segment-count score of findBestMatch: how many target segments
occur as substrings of the candidate SKU. -/
def skuScore (parts : List String) (productSku : Option String) : ℕ :=
  parts.countP fun part => Js.includes (Js.lowerStr (productSku.getD "")) part

/-- One step of the strict-improvement reduce shared by both matchers. -/
def bestStep {α : Type} (f : α → ℕ) (best : α × ℕ) (x : α) : α × ℕ :=
  if f x > best.2 then (x, f x) else best

/-- findBestMatch of the first kicksdb.js document: reduce with the first
product and score zero as the initial accumulator. -/
def findBestMatch (products : List SXData) (targetSku : String) : Option SXData :=
  match products with
  | [] => none
  | p0 :: _ =>
    some ((products.foldl (bestStep fun p => skuScore (targetParts targetSku) p.sku)
      (p0, 0)).1)

/-- The score of findBestSkuMatch in the second kicksdb.js document: two
points per matching segment, plus one bonus point when the candidate
title contains both anta and kai. -/
def skuMatchScore (parts : List String) (product : SXData) : ℕ :=
  let base := 2 * parts.countP fun part =>
    Js.includes (Js.lowerStr (product.sku.getD "")) part
  let productTitle := Js.lowerStr (product.title.getD "")
  if Js.includes productTitle "anta" && Js.includes productTitle "kai" then
    base + 1
  else base

/-- findBestSkuMatch of the second kicksdb.js document: same
strict-improvement scan, with the bonus-carrying score. -/
def findBestSkuMatch (products : List SXData) (targetSku : String) : Option SXData :=
  match products with
  | [] => none
  | p0 :: _ =>
    some ((products.foldl (bestStep (skuMatchScore (targetParts targetSku)))
      (p0, 0)).1)

/-- The numeric key of the size sort: strip the first occurrence of the
US prefix from the label and parse. -/
def sortKey (label : String) : Option ℚ :=
  Js.parseJsFloat (String.mk (Js.removeFirst ("US ".toList) label.toList))

/-- The comparator of the size sort, comparing parsed keys; an
unparseable key is compared as 0 (the source comparator is not defined
on such labels, see the sortedness theorem hypothesis). -/
def sizeLE (a b : SizeOffer) : Prop :=
  (sortKey a.size).getD 0 ≤ (sortKey b.size).getD 0

instance sizeLEDec : DecidableRel sizeLE :=
  fun a b => inferInstanceAs (Decidable ((sortKey a.size).getD 0 ≤ (sortKey b.size).getD 0))

instance sizeLETotal : IsTotal SizeOffer sizeLE :=
  ⟨fun a b => le_total ((sortKey a.size).getD 0) ((sortKey b.size).getD 0)⟩

instance sizeLETrans : IsTrans SizeOffer sizeLE :=
  ⟨fun _ _ _ hab hbc => le_trans hab hbc⟩

/-- The per-variant offer of extractStockXVariants in the second
kicksdb.js document: the lowest ask falls back to the price field, the
ask count falls back to the asks field, and availability additionally
accepts recent sales in place of open asks. -/
def mkOffer2 (variant : Variant) : SizeOffer :=
  let lowestAsk := Js.qOr variant.lowest_ask (Js.qOr variant.price 0)
  let totalAsks := Js.qOr variant.total_asks (Js.qOr variant.asks 0)
  let sales15Days := Js.qOr variant.sales_count_15_days 0
  let available := decide (0 < lowestAsk) &&
    (decide (0 < totalAsks) || decide (0 < sales15Days))
  let sizeUS := Js.orD variant.size (Js.orD variant.us_size (.vstr "N/A"))
  { size := "US " ++ Js.display (some sizeUS)
    price := if available then Js.toFixed2 lowestAsk else 0
    available := available }

/-- The product info map of the second kicksdb.js document. -/
structure ProductInfo where
  name : String
  sku : String
  basePrice : ℚ
  image : String
deriving DecidableEq

/-- getProductInfoByQuery of the second kicksdb.js document: lookup by
upstream id first, then by SKU, then the generic fallback. -/
def getProductInfoByQuery (queryParam : String) (isIdQuery : Bool) : ProductInfo :=
  let jelly : ProductInfo :=
    ⟨"Anta Kai 1 Jelly", "112441113-13/1124D1113-13", 118, "unsplash-jelly"⟩
  let black : ProductInfo :=
    ⟨"Anta Kai 2 Triple Black", "112531111S-3/8125C1111S-3/812531111S-3", 101,
      "unsplash-triple-black"⟩
  let white : ProductInfo :=
    ⟨"Anta Kai Hélà White", "8125B1110S-3/112521110S-3/1125B1110S-3", 80,
      "unsplash-hela-white"⟩
  if isIdQuery ∧ queryParam = "94c1e4e1-1c99-44c4-9d81-672044e7f777" then jelly
  else if isIdQuery ∧ queryParam = "dbb27df3-bb6e-4a7a-ba38-1bbb5f5a022a" then black
  else if isIdQuery ∧ queryParam = "f1938d29-48da-47eb-a5f8-619a2d8443ca" then white
  else if ¬ isIdQuery ∧ queryParam = "112441113-13/1124D1113-13" then jelly
  else if ¬ isIdQuery ∧ queryParam = "112531111S-3/8125C1111S-3/812531111S-3" then black
  else if ¬ isIdQuery ∧ queryParam = "8125B1110S-3/112521110S-3/1125B1110S-3" then white
  else ⟨"Anta Basketball Shoe", queryParam, 120, "unsplash-generic"⟩

/-- generateRealisticSizeData of the second kicksdb.js document: per
size, the first random draw decides availability against a
popularity-dependent chance, the second scales the price. -/
def generateRealisticSizeData (rand : ℕ → ℚ) (queryParam : String)
    (basePrice : Option ℚ) : List SizeOffer :=
  let realBasePrice :=
    Js.qOr basePrice (getProductInfoByQuery queryParam false).basePrice
  sizeRange17.enum.map fun iv =>
    let sizeFloat := (Js.parseJsFloat iv.2).getD 0
    let availabilityChance : ℚ :=
      if 8 ≤ sizeFloat ∧ sizeFloat ≤ 11 then 35 / 100
      else if 115 / 10 ≤ sizeFloat ∧ sizeFloat ≤ 13 then 55 / 100
      else if 135 / 10 ≤ sizeFloat then 80 / 100
      else if sizeFloat ≤ 75 / 10 then 75 / 100
      else 65 / 100
    let available := decide (rand (2 * iv.1) < availabilityChance)
    let priceMultiplier : ℚ :=
      if sizeFloat ≤ 7 ∨ 135 / 10 ≤ sizeFloat then
        12 / 10 + rand (2 * iv.1 + 1) * (4 / 10)
      else if 8 ≤ sizeFloat ∧ sizeFloat ≤ 105 / 10 then
        11 / 10 + rand (2 * iv.1 + 1) * (3 / 10)
      else 95 / 100 + rand (2 * iv.1 + 1) * (25 / 100)
    { size := "US " ++ iv.2
      price := if available then Js.toFixed2 (realBasePrice * priceMultiplier) else 0
      available := available }

/-- extractStockXVariants of the second kicksdb.js document: map the
variants and sort by the numeric size key; Array.prototype.sort with a
consistent comparator is modelled by a stable sort. -/
def extractStockXVariants (rand : ℕ → ℚ) (queryParam : String)
    (variants : Option (List Variant)) : List SizeOffer :=
  match variants with
  | none => generateRealisticSizeData rand queryParam none
  | some vs => List.insertionSort sizeLE (vs.map mkOffer2)

/-- The per-variant offer of extractStockXVariants in the third document
of part_001: no price fallback for the ask, and availability is exactly
a positive ask price together with a positive ask count. -/
def mkOffer3 (variant : Variant) : SizeOffer :=
  let lowestAsk := Js.qOr variant.lowest_ask 0
  let totalAsks := Js.qOr variant.total_asks 0
  let available := decide (0 < lowestAsk) && decide (0 < totalAsks)
  { size := "US " ++ Js.display (Js.orO variant.size (some (.vstr "N/A")))
    price := if available then Js.toFixed2 lowestAsk else 0
    available := available }

/-- generateFallbackSizes of the third document of part_001. -/
def generateFallbackSizes (rand : ℕ → ℚ) : List SizeOffer :=
  sizeRange17.enum.map fun iv =>
    let sizeFloat := (Js.parseJsFloat iv.2).getD 0
    let availabilityChance : ℚ :=
      if 8 ≤ sizeFloat ∧ sizeFloat ≤ 11 then 35 / 100
      else if 135 / 10 ≤ sizeFloat then 80 / 100
      else 65 / 100
    let available := decide (rand (2 * iv.1) < availabilityChance)
    let priceMultiplier : ℚ :=
      if sizeFloat ≤ 7 ∨ 135 / 10 ≤ sizeFloat then
        12 / 10 + rand (2 * iv.1 + 1) * (4 / 10)
      else if 8 ≤ sizeFloat ∧ sizeFloat ≤ 105 / 10 then
        11 / 10 + rand (2 * iv.1 + 1) * (3 / 10)
      else 95 / 100 + rand (2 * iv.1 + 1) * (25 / 100)
    { size := "US " ++ iv.2
      price := if available then Js.toFixed2 (120 * priceMultiplier) else 0
      available := available }

/-- extractStockXVariants of the third document of part_001. -/
def extractStockXVariants3 (rand : ℕ → ℚ)
    (variants : Option (List Variant)) : List SizeOffer :=
  match variants with
  | none => generateFallbackSizes rand
  | some vs => List.insertionSort sizeLE (vs.map mkOffer3)

/-! The request handler of the first kicksdb.js document, modelled up to
its single search fetch. -/

/-- A cache entry as stored by cache.set. -/
structure CacheEntry where
  data : Product1
  timestamp : ℤ
deriving DecidableEq

/-- The module cache; Map.set is modelled by consing, Map.get by the
first matching binding. -/
abbrev Cache := List (String × CacheEntry)

/-- The one-minute TTL of kicksdb.js. -/
def CACHE_TTL : ℤ := 60 * 1000

def getCacheKey (sku market : String) : String := sku ++ "-" ++ market

def cacheLookup (cache : Cache) (key : String) : Option CacheEntry :=
  (cache.find? fun kv => kv.1 = key).map fun kv => kv.2

/-- isCacheValid of kicksdb.js: the entry exists and is younger than the
TTL at the current time. -/
def isCacheValid (now : ℤ) (entry : Option CacheEntry) : Bool :=
  match entry with
  | some e => decide (now - e.timestamp < CACHE_TTL)
  | none => false

/-- The body of the search response, as read by the handler. -/
structure SearchResponse where
  data : Option (List SXData)
deriving DecidableEq

/-- Outcome of the single fetch of the first kicksdb.js handler; a json
field of none models response.json() throwing. -/
inductive Fetch1 where
  | threw
  | resp (ok : Bool) (json : Option SearchResponse)
deriving DecidableEq

/-- A response body of the handler. -/
inductive Body1 where
  | empty
  | err (msg : String)
  | product (p : Product1)
deriving DecidableEq

/-- An HTTP response of the handler; the CORS and content-type headers
are constant and not modelled. -/
structure Response1 where
  statusCode : ℕ
  body : Body1
deriving DecidableEq

/-- The incoming request: method and query parameters. -/
structure Request1 where
  httpMethod : String
  sku : Option String := none
  market : Option String := none
deriving DecidableEq

/-- The part of the first kicksdb.js handler that runs after the cache
check: credential check, fetch, normalization of the best search match,
and the mock fallback reached through the catch block. Every branch
below the credential check answers 200 and writes the cache. -/
def afterCache1 (sku market : String) (cache : Cache) (now : ℤ)
    (rand : ℕ → ℚ) (apiKey : Option String) (fetch : Fetch1) :
    Response1 × Cache :=
  match apiKey with
  | none => (⟨500, .err "KICKSDB_API_KEY not configured"⟩, cache)
  | some _ =>
    let key := getCacheKey sku market
    match fetch with
    | .resp true (some j) =>
      match j.data with
      | some (d :: ds) =>
        let best := (findBestMatch (d :: ds) sku).getD d
        let productData := normalizeStockXResponse best sku now rand
        (⟨200, .product productData⟩, (key, ⟨productData, now⟩) :: cache)
      | _ =>
        let productData := createStockXMockData sku now rand
        (⟨200, .product productData⟩, (key, ⟨productData, now⟩) :: cache)
    | _ =>
      let productData := createStockXMockData sku now rand
      (⟨200, .product productData⟩, (key, ⟨productData, now⟩) :: cache)

/-- The first kicksdb.js handler: CORS preflight, method check, SKU
check, cache lookup, and only then the credential check and the fetch. -/
def handler1 (ev : Request1) (cache : Cache) (now : ℤ) (rand : ℕ → ℚ)
    (apiKey : Option String) (fetch : Fetch1) : Response1 × Cache :=
  if ev.httpMethod = "OPTIONS" then (⟨200, .empty⟩, cache)
  else if ev.httpMethod ≠ "GET" then (⟨405, .err "Method not allowed"⟩, cache)
  else if ¬ Js.strTruthy ev.sku then (⟨400, .err "SKU parameter is required"⟩, cache)
  else
    match cacheLookup cache (getCacheKey (ev.sku.getD "") (ev.market.getD "US")) with
    | some e =>
      if isCacheValid now (some e) then (⟨200, .product e.data⟩, cache)
      else afterCache1 (ev.sku.getD "") (ev.market.getD "US") cache now rand apiKey fetch
    | none => afterCache1 (ev.sku.getD "") (ev.market.getD "US") cache now rand apiKey fetch

end SX

namespace Scan

/-- The champion of a strict-improvement scan started at b: a later
element replaces the current champion only with a strictly greater
score, so the scan keeps the earliest maximal element. -/
def firstMax {α : Type} (f : α → ℕ) (b : α) : List α → α
  | [] => b
  | x :: l => if f x > f b then firstMax f x l else firstMax f b l

end Scan

namespace Spec

/-! Definitions that follow the wording of the claims, for comparison
against the definitions embedded from the source. -/

/-- The C2 claim wording: the first present, numeric-parseable, non-NaN
field wins, regardless of truthiness. -/
def firstPresentParse : List (Option Js.JVal) → Option ℚ
  | [] => none
  | none :: rest => firstPresentParse rest
  | some v :: rest =>
    match Js.parseFloatV (some v) with
    | some q => some q
    | none => firstPresentParse rest

/-- The C2 claim rule applied to the six price fields in their priority
order. -/
def presentPrice (d : Kicks.Payload) : Option ℚ :=
  firstPresentParse
    [d.retailPrice, d.msrp, d.basePrice, d.lowestAsk, d.price, d.averagePrice]

/-- The amended C2 rule: the first truthy field that parses wins; a falsy
field, in particular a numeric zero, falls through. -/
def firstTruthyParse : List (Option Js.JVal) → Option ℚ
  | [] => none
  | v :: rest =>
    if Kicks.priceOk v then Js.parseFloatV v else firstTruthyParse rest

/-- The amended C2 rule applied to the six price fields. -/
def truthyPrice (d : Kicks.Payload) : Option ℚ :=
  firstTruthyParse
    [d.retailPrice, d.msrp, d.basePrice, d.lowestAsk, d.price, d.averagePrice]

/-- The C1 claim wording: available exactly when the quoted price and the
offer count are both positive. -/
def liveAvailable (v : SX.Variant) : Bool :=
  decide (0 < v.lowest_ask.getD 0) && decide (0 < v.total_asks.getD 0)

/-- The C3 claim wording of a failed candidate: a thrown fetch, a
non-success status, a body that does not open like JSON, or a body that
fails to parse. -/
def candidateFails {P : Type} (parse : String → Option P) (r : Kicks.FetchResult) : Prop :=
  r = .threw
  ∨ (∃ b, r = .resp false b)
  ∨ (∃ b, r = .resp true b ∧ Kicks.startsJson b = false)
  ∨ (∃ b, r = .resp true b ∧ Kicks.startsJson b = true ∧ parse b = none)

/-- The C3 claim wording of a succeeding candidate. -/
def candidateSucceeds {P : Type} (parse : String → Option P) (r : Kicks.FetchResult)
    (p : P) : Prop :=
  ∃ b, r = .resp true b ∧ Kicks.startsJson b = true ∧ parse b = some p

end Spec

namespace Inputs

/-! Concrete inputs used by witnesses and counterexamples. -/

/-- A constant random stream. -/
def rand0 : ℕ → ℚ := fun _ => 0

/-- A toy JSON parser for the cascade models: only the body [1] parses. -/
def parse1 : String → Option ℕ := fun s => if s = "[1]" then some 42 else none

/-- A variant with a quoted ask but zero open asks. -/
def v1200 : SX.Variant :=
  { size := some (.vstr "9"), lowest_ask := some 120, total_asks := some 0 }

/-- A variant with open asks but a zero ask price. -/
def v05 : SX.Variant :=
  { size := some (.vstr "9"), lowest_ask := some 0, total_asks := some 5 }

/-- A variant with a quoted ask and open asks. -/
def v1203 : SX.Variant :=
  { size := some (.vstr "9"), lowest_ask := some 120, total_asks := some 3 }

/-- A variant whose ask price of 0.004 rounds to zero cents. -/
def v004 : SX.Variant :=
  { size := some (.vstr "9"), lowest_ask := some (1 / 250), total_asks := some 3 }

/-- A variant with no lowest_ask at all, but a price field of 50 and
three open asks. -/
def vP503 : SX.Variant :=
  { size := some (.vstr "9"), price := some 50, total_asks := some 3 }

/-- A search candidate matching the target SKU with a plain title. -/
def pA : SX.SXData := { sku := some "ABC", title := some "Shoe" }

/-- A search candidate matching the target SKU equally well, carrying the
bonus-scoring title. -/
def pB : SX.SXData := { sku := some "abc", title := some "Anta Kai 1" }

/-- A payload whose retail price is the number zero next to a price of
100. -/
def dZero : Kicks.Payload :=
  { retailPrice := some (.vnum 0), price := some (.vnum 100) }

/-- A payload with a retail price of 150 and a price of 100. -/
def d150 : Kicks.Payload :=
  { retailPrice := some (.vnum 150), price := some (.vnum 100) }

/-- A payload whose only price field is an average price of 88.5. -/
def dAvg : Kicks.Payload := { averagePrice := some (.vnum (177 / 2)) }

/-- The empty payload. -/
def dEmpty : Kicks.Payload := {}

/-- A payload whose asks entries all lack a size label, so every
extracted entry gets the Unknown label. -/
def dUnknown : Kicks.Payload :=
  { retailPrice := some (.vnum 150), asks := some [{}, {}] }

/-- A payload with sizes but no date field, so the capture time leaks
into the output. -/
def dTimed : Kicks.Payload :=
  { retailPrice := some (.vnum 150),
    variants := some [{ size := some (.vstr "9"), price := some (.vnum 100) }] }

/-- A payload with sizes and a date field. -/
def dDated : Kicks.Payload :=
  { retailPrice := some (.vnum 150),
    updated_at := some (.vstr "2024-01-01"),
    variants := some [{ size := some (.vstr "9"), price := some (.vnum 100) }] }

/-- A StockX payload with a date field and a nonempty variants array. -/
def sx0 : SX.SXData :=
  { updated_at := some "2024-01-01", variants := some [v1203] }

/-- A cached product. -/
def prod0 : SX.Product1 := ⟨"A", "t", "i", "l", 1, [], false⟩

/-- A cache entry captured at time zero. -/
def entry0 : SX.CacheEntry := ⟨prod0, 0⟩

/-- A one-entry cache for the key A-US. -/
def cache0 : SX.Cache := [("A-US", entry0)]

/-- A plain GET request for the SKU A. -/
def req0 : SX.Request1 := { httpMethod := "GET", sku := some "A" }

end Inputs

/-! ## Helper lemmas -/

theorem priceOf_getD (v : Option Js.JVal) (h : Kicks.priceOk v = true) (c : ℚ) :
    (Js.parseFloatV v).getD c = Kicks.priceOf v := by
  unfold Kicks.priceOk at h
  unfold Kicks.priceOf
  rcases hv : Js.parseFloatV v with _ | q
  · rw [hv] at h
    simp at h
  · simp

theorem qOr_zero (a : Option ℚ) : Js.qOr a 0 = a.getD 0 := by
  rcases a with _ | q
  · rfl
  · unfold Js.qOr
    by_cases h : q = 0 <;> simp [h]

theorem toFixed2_cents (k : ℤ) : Js.toFixed2 ((k : ℚ) / 100) = (k : ℚ) / 100 := by
  unfold Js.toFixed2
  have h100 : ((k : ℚ) / 100) * 100 = (k : ℚ) := by
    field_simp
  rw [h100]
  have hfloor : ⌊(k : ℚ) + 1 / 2⌋ = k := by
    rw [add_comm, Int.floor_add_int]
    norm_num
  rw [hfloor]

theorem mem_filterSizes {e : Kicks.SizeEntry} {l : List Kicks.SizeEntry}
    (h : e ∈ Kicks.filterSizes l) :
    Js.truthyV e.size = true ∧ e.size ≠ .vstr "Unknown" ∧ e.price.isSome = true := by
  unfold Kicks.filterSizes at h
  have hp := List.of_mem_filter h
  simp only [Bool.and_eq_true, beq_iff_eq, Bool.not_eq_eq_eq_not, Bool.not_true,
    bne_iff_ne, ne_eq] at hp
  refine ⟨hp.1.1, ?_, hp.2⟩
  intro hcontra
  have := hp.1.2
  simp [hcontra] at this

theorem resolveRegularPrice_eq_truthy (d : Kicks.Payload) :
    P0.resolveRegularPrice d = (Spec.truthyPrice d).getD 120 := by
  unfold P0.resolveRegularPrice Spec.truthyPrice
  simp only [Spec.firstTruthyParse]
  split_ifs with h1 h2 h3 h4 h5 h6 <;>
    first
      | exact (priceOf_getD _ (by assumption) 120).symm
      | rfl

/-! ## Claim C4 -/

/-- C4: the kicksdb.js cache lookup is a hit exactly when the lookup time
is within TTL of the capture time; a lookup never yields an entry at
least TTL old, and a missing entry is never valid. -/
theorem c4_cacheTTL :
    (∀ (e : SX.CacheEntry) (now : ℤ),
      SX.isCacheValid now (some e) = true ↔ now - e.timestamp < SX.CACHE_TTL)
    ∧ (∀ now : ℤ, SX.isCacheValid now none = false)
    ∧ (∀ (cache : SX.Cache) (key : String) (now : ℤ) (e : SX.CacheEntry),
        SX.cacheLookup cache key = some e →
        SX.isCacheValid now (SX.cacheLookup cache key) = true →
        now - e.timestamp < SX.CACHE_TTL) := by
  refine ⟨fun e now => by simp [SX.isCacheValid], fun now => rfl, ?_⟩
  intro cache key now e he hv
  rw [he] at hv
  simpa [SX.isCacheValid] using hv

/-- C4 witness: at one millisecond before expiry the entry is returned,
at one millisecond after expiry it is not. -/
theorem c4_cacheTTL_witness :
    SX.isCacheValid 59999 (some Inputs.entry0) = true
    ∧ SX.isCacheValid 60001 (some Inputs.entry0) = false
    ∧ (59999 : ℤ) - Inputs.entry0.timestamp < SX.CACHE_TTL := by
  have h1 : SX.isCacheValid 59999 (some Inputs.entry0) = true :=
    (c4_cacheTTL.1 Inputs.entry0 59999).mpr (by decide)
  have hl : SX.cacheLookup Inputs.cache0 "A-US" = some Inputs.entry0 := by decide
  have h3 := c4_cacheTTL.2.2 Inputs.cache0 "A-US" 59999 Inputs.entry0 hl
    (by rw [hl]; exact h1)
  refine ⟨h1, ?_, h3⟩
  by_contra hcontra
  have h2 : SX.isCacheValid 60001 (some Inputs.entry0) = true := by
    revert hcontra
    cases SX.isCacheValid 60001 (some Inputs.entry0) <;> simp
  have := (c4_cacheTTL.1 Inputs.entry0 60001).mp h2
  revert this
  decide

/-! ## Claim C2 -/

/-- C2 (amended): normalizeKicksDbResponse resolves regularPrice through
the strict priority retailPrice, msrp, basePrice, lowestAsk, price,
averagePrice, taking the first TRUTHY, numeric-parseable, non-NaN value;
a falsy field, in particular a numeric zero, falls through to the next.
With retailPrice 150 and price 100 it resolves to 150, with only
averagePrice 88.5 to 88.5, with no qualifying field to the default 120,
while the strict variant raises its no-valid-price error. -/
theorem c2_priceFallback :
    (∀ (d : Kicks.Payload) (sku : String) (now : ℤ),
      (P0.normalizeKicksDbResponse d sku now).regularPrice =
        (Spec.truthyPrice d).getD 120)
    ∧ (P0.normalizeKicksDbResponse Inputs.d150 "a" 0).regularPrice = 150
    ∧ (P0.normalizeKicksDbResponse Inputs.dAvg "a" 0).regularPrice = 177 / 2
    ∧ (P0.normalizeKicksDbResponse Inputs.dEmpty "a" 0).regularPrice = 120
    ∧ Strict.normalizeKicksDbStrict Inputs.dEmpty "a" 0 =
        .error "No valid price found in API response" := by
  refine ⟨fun d sku now => ?_, by decide, by decide, by decide, by rfl⟩
  show P0.resolveRegularPrice d = _
  exact resolveRegularPrice_eq_truthy d

/-- C2 counterexample: on the payload with a retail price of numeric zero
and a price of 100 the code yields 100, while the rule of the claim, the
first present parseable value, yields 0. -/
theorem c2_zeroRetail_counterexample :
    (P0.normalizeKicksDbResponse Inputs.dZero "a" 0).regularPrice = 100
    ∧ Spec.presentPrice Inputs.dZero = some 0
    ∧ (100 : ℚ) ≠ 0 := by
  refine ⟨by decide, by decide, by norm_num⟩

/-! ## Claim C5 -/

/-- C5: every size entry surviving normalization has a truthy label that
is not Unknown and a numeric price, in both the part_000 normalizer and
the strict one; a payload whose extracted labels are all Unknown ends in
the default-size fallback in part_000 and in the no-valid-sizes error in
the strict document. -/
theorem c5_sizeFiltering :
    (∀ (d : Kicks.Payload) (sku : String) (now : ℤ),
      ∀ e ∈ (P0.normalizeKicksDbResponse d sku now).sizes,
        Js.truthyV e.size = true ∧ e.size ≠ .vstr "Unknown" ∧ e.price.isSome = true)
    ∧ (∀ (d : Kicks.Payload) (sku : String) (now : ℤ) (p : Strict.ProductS),
        Strict.normalizeKicksDbStrict d sku now = .ok p →
        ∀ e ∈ p.sizes,
          Js.truthyV e.size = true ∧ e.size ≠ .vstr "Unknown" ∧ e.price.isSome = true)
    ∧ (P0.normalizeKicksDbResponse Inputs.dUnknown "a" 0).sizes = P0.defaultSizes 150
    ∧ Strict.normalizeKicksDbStrict Inputs.dUnknown "a" 0 =
        .error "No valid sizes found in API response" := by
  refine ⟨?_, ?_, by decide, by rfl⟩
  · intro d sku now e he
    have hsz : (P0.normalizeKicksDbResponse d sku now).sizes =
        (if (Kicks.filterSizes (P0.rawSizes d (P0.resolveRegularPrice d))).isEmpty
          then P0.defaultSizes (P0.resolveRegularPrice d)
          else Kicks.filterSizes (P0.rawSizes d (P0.resolveRegularPrice d))) := rfl
    rw [hsz] at he
    split at he
    · unfold P0.defaultSizes at he
      rcases List.mem_map.mp he with ⟨s, hs, rfl⟩
      fin_cases hs <;> exact ⟨rfl, by simp, rfl⟩
    · exact mem_filterSizes he
  · intro d sku now p hok e he
    unfold Strict.normalizeKicksDbStrict at hok
    split at hok
    · exact absurd hok (by simp)
    · split at hok
      · exact absurd hok (by simp)
      · simp only [] at hok
        split at hok
        · exact absurd hok (by simp)
        · injection hok with h
          rw [← h] at he
          exact mem_filterSizes he

/-- C5 witness: the filter facts instantiated on a concrete surviving
entry of a concrete payload. -/
theorem c5_sizeFiltering_witness :
    Js.truthyV (⟨.vstr "9", some 100, true⟩ : Kicks.SizeEntry).size = true
    ∧ (⟨.vstr "9", some 100, true⟩ : Kicks.SizeEntry).size ≠ .vstr "Unknown"
    ∧ (⟨.vstr "9", some 100, true⟩ : Kicks.SizeEntry).price.isSome = true :=
  c5_sizeFiltering.1 Inputs.dTimed "a" 0 ⟨.vstr "9", some 100, true⟩ (by decide)

/-! ## Claim C1 -/

/-- C1 (amended): extractStockXVariants of the second kicksdb.js document
computes availability as a positive ask price AND positive open interest,
where the interest test also accepts recent sales; on payloads carrying
only lowest_ask and total_asks it coincides with the claimed rule, and
the three claimed instances hold: ask 120 with 0 asks is unavailable, ask
0 with 5 asks is unavailable, ask 120 with 3 asks is available. The
sibling extractSizesFromStockXVariants instead uses the quoted price
alone, see the counterexample. -/
theorem c1_offerCountRule :
    (∀ (rand : ℕ → ℚ) (qp : String) (vs : List SX.Variant),
      (∀ v ∈ vs, v.price = none ∧ v.asks = none ∧ v.sales_count_15_days = none) →
      ∀ o ∈ SX.extractStockXVariants rand qp (some vs),
        ∃ v ∈ vs, o = SX.mkOffer2 v ∧ o.available = Spec.liveAvailable v)
    ∧ (SX.extractStockXVariants Inputs.rand0 "q" (some [Inputs.v1200])).map
        (fun o => o.available) = [false]
    ∧ (SX.extractStockXVariants Inputs.rand0 "q" (some [Inputs.v05])).map
        (fun o => o.available) = [false]
    ∧ (SX.extractStockXVariants Inputs.rand0 "q" (some [Inputs.v1203])).map
        (fun o => o.available) = [true] := by
  refine ⟨?_, by decide, by decide, by decide⟩
  intro rand qp vs hv o ho
  have ho2 : o ∈ vs.map SX.mkOffer2 := by
    have : o ∈ List.insertionSort SX.sizeLE (vs.map SX.mkOffer2) := ho
    exact (List.mem_insertionSort SX.sizeLE).mp this
  rcases List.mem_map.mp ho2 with ⟨v, hvm, rfl⟩
  obtain ⟨hp, ha, hs⟩ := hv v hvm
  refine ⟨v, hvm, rfl, ?_⟩
  simp only [SX.mkOffer2, Spec.liveAvailable, hp, ha, hs, qOr_zero, Option.getD_none]
  norm_num

/-- C1 witness: the offer-count rule applied to the available variant. -/
theorem c1_offerCountRule_witness :
    (⟨"US 9", 120, true⟩ : SX.SizeOffer) = SX.mkOffer2 Inputs.v1203
    ∧ (⟨"US 9", 120, true⟩ : SX.SizeOffer).available = Spec.liveAvailable Inputs.v1203 := by
  obtain ⟨v, hvm, h1, h2⟩ :=
    c1_offerCountRule.1 Inputs.rand0 "q" [Inputs.v1203] (by decide)
      ⟨"US 9", 120, true⟩ (by decide)
  rcases List.mem_singleton.mp hvm with rfl
  exact ⟨h1, h2⟩

/-- C1 counterexample: extractSizesFromStockXVariants of the first
kicksdb.js document marks the variant with ask 120 and 0 open asks as
available, against the claimed rule. -/
theorem c1_priceOnly_counterexample :
    (SX.extractSizesFromStockXVariants Inputs.rand0 (some [Inputs.v1200])).map
      (fun o => o.available) = [true]
    ∧ Spec.liveAvailable Inputs.v1200 = false := ⟨by decide, by decide⟩

/-! ## Claim C10 -/

/-- C10 (amended): every offer of both cited live-market extractions
keeps price and availability consistent up to the effective ask and cent
rounding. An unavailable offer has price 0. An available offer has a
positive effective ask, which is the variant lowest_ask in the part_001
extraction and lowest_ask falling back to the price field in the
kicksdb.js extraction, and its price is the toFixed(2) rounding of that
effective ask, equal to it, positively, whenever the lowest_ask is a
whole positive amount of cents. -/
theorem c10_priceConsistency :
    (∀ (rand : ℕ → ℚ) (vs : List SX.Variant),
      ∀ o ∈ SX.extractStockXVariants3 rand (some vs),
        ∃ v ∈ vs, o = SX.mkOffer3 v
          ∧ (o.available = false → o.price = 0)
          ∧ (o.available = true →
              o.price = Js.toFixed2 (Js.qOr v.lowest_ask 0) ∧ 0 < Js.qOr v.lowest_ask 0))
    ∧ (∀ (rand : ℕ → ℚ) (qp : String) (vs : List SX.Variant),
      ∀ o ∈ SX.extractStockXVariants rand qp (some vs),
        ∃ v ∈ vs, o = SX.mkOffer2 v
          ∧ (o.available = false → o.price = 0)
          ∧ (o.available = true →
              o.price = Js.toFixed2 (Js.qOr v.lowest_ask (Js.qOr v.price 0))
              ∧ 0 < Js.qOr v.lowest_ask (Js.qOr v.price 0)))
    ∧ (∀ (v : SX.Variant) (k : ℤ), 0 < k → v.lowest_ask = some ((k : ℚ) / 100) →
        (SX.mkOffer3 v).available = true →
        (SX.mkOffer3 v).price = (k : ℚ) / 100 ∧ 0 < (SX.mkOffer3 v).price)
    ∧ (∀ (v : SX.Variant) (k : ℤ), 0 < k → v.lowest_ask = some ((k : ℚ) / 100) →
        (SX.mkOffer2 v).available = true →
        (SX.mkOffer2 v).price = (k : ℚ) / 100 ∧ 0 < (SX.mkOffer2 v).price) := by
  refine ⟨?_, ?_, ?_, ?_⟩
  · intro rand vs o ho
    have ho2 : o ∈ vs.map SX.mkOffer3 := by
      have : o ∈ List.insertionSort SX.sizeLE (vs.map SX.mkOffer3) := ho
      exact (List.mem_insertionSort SX.sizeLE).mp this
    rcases List.mem_map.mp ho2 with ⟨v, hvm, rfl⟩
    refine ⟨v, hvm, rfl, ?_, ?_⟩
    · intro hn
      simp only [SX.mkOffer3] at hn ⊢
      simp [hn]
    · intro hy
      simp only [SX.mkOffer3] at hy ⊢
      rw [Bool.and_eq_true, decide_eq_true_iff, decide_eq_true_iff] at hy
      simp [hy.1, hy.2, le_of_lt hy.1]
  · intro rand qp vs o ho
    have ho2 : o ∈ vs.map SX.mkOffer2 := by
      have : o ∈ List.insertionSort SX.sizeLE (vs.map SX.mkOffer2) := ho
      exact (List.mem_insertionSort SX.sizeLE).mp this
    rcases List.mem_map.mp ho2 with ⟨v, hvm, rfl⟩
    refine ⟨v, hvm, rfl, ?_, ?_⟩
    · intro hn
      simp only [SX.mkOffer2] at hn ⊢
      simp [hn]
    · intro hy
      simp only [SX.mkOffer2] at hy ⊢
      rw [Bool.and_eq_true, decide_eq_true_iff] at hy
      simp [hy.1, hy.2, le_of_lt hy.1]
  · intro v k hk hla hav
    have hne : ((k : ℚ) / 100) ≠ 0 := by
      positivity
    have hqor : Js.qOr v.lowest_ask 0 = (k : ℚ) / 100 := by
      rw [hla]
      simp [Js.qOr, hne]
    have hprice : (SX.mkOffer3 v).price = Js.toFixed2 (Js.qOr v.lowest_ask 0) := by
      simp only [SX.mkOffer3] at hav ⊢
      simp [hav]
    rw [hprice, hqor, toFixed2_cents]
    exact ⟨rfl, by positivity⟩
  · intro v k hk hla hav
    have hne : ((k : ℚ) / 100) ≠ 0 := by
      positivity
    have hqor : Js.qOr v.lowest_ask (Js.qOr v.price 0) = (k : ℚ) / 100 := by
      rw [hla]
      simp [Js.qOr, hne]
    have hprice : (SX.mkOffer2 v).price =
        Js.toFixed2 (Js.qOr v.lowest_ask (Js.qOr v.price 0)) := by
      simp only [SX.mkOffer2] at hav ⊢
      simp [hav]
    rw [hprice, hqor, toFixed2_cents]
    exact ⟨rfl, by positivity⟩

/-- C10 witness: the consistency facts on a concrete available offer with
a whole-cent ask, in both extractions. -/
theorem c10_priceConsistency_witness :
    ((⟨"US 9", 120, true⟩ : SX.SizeOffer).available = false →
      (⟨"US 9", 120, true⟩ : SX.SizeOffer).price = 0)
    ∧ (SX.mkOffer3 Inputs.v1203).price = ((12000 : ℤ) : ℚ) / 100
    ∧ 0 < (SX.mkOffer3 Inputs.v1203).price
    ∧ (SX.mkOffer2 Inputs.v1203).price = ((12000 : ℤ) : ℚ) / 100
    ∧ 0 < (SX.mkOffer2 Inputs.v1203).price := by
  have h3 := c10_priceConsistency.2.2.1 Inputs.v1203 12000 (by norm_num)
    (by show some (120 : ℚ) = some _; norm_num) (by decide)
  have h2 := c10_priceConsistency.2.2.2 Inputs.v1203 12000 (by norm_num)
    (by show some (120 : ℚ) = some _; norm_num) (by decide)
  obtain ⟨v, hvm, heq, hfa, hta⟩ :=
    c10_priceConsistency.1 Inputs.rand0 [Inputs.v1203]
      ⟨"US 9", 120, true⟩ (by decide)
  exact ⟨fun h => hfa h, h3.1, h3.2, h2.1, h2.2⟩

/-- C10 counterexample: in the part_001 extraction the variant with
lowest ask 0.004 and three open asks produces an available offer whose
price is 0, neither equal to the lowest ask nor positive; in the
kicksdb.js extraction a variant carrying no lowest_ask at all, only a
price field of 50 and three open asks, produces an available offer
priced from the price field while the lowest ask of the claim is
absent. -/
theorem c10_rounding_counterexample :
    (SX.extractStockXVariants3 Inputs.rand0 (some [Inputs.v004])).map
      (fun o => (o.available, o.price)) = [(true, 0)]
    ∧ Inputs.v004.lowest_ask = some (1 / 250)
    ∧ (0 : ℚ) < 1 / 250
    ∧ (0 : ℚ) ≠ 1 / 250
    ∧ (SX.extractStockXVariants Inputs.rand0 "q" (some [Inputs.vP503])).map
        (fun o => (o.available, o.price)) = [(true, 50)]
    ∧ Inputs.vP503.lowest_ask = none :=
  ⟨by decide, rfl, by norm_num, by norm_num, by decide, rfl⟩

/-! ## Claim C9 -/

/-- C9: both live-market extractions return their offers sorted in
non-decreasing order of the numeric size key parsed from the US label,
for every input order of the variants; the second kicksdb.js extraction
moreover returns exactly the per-variant offers, reordered. -/
theorem c9_sizesSorted :
    (∀ (rand : ℕ → ℚ) (qp : String) (vs : List SX.Variant),
      List.Sorted SX.sizeLE (SX.extractStockXVariants rand qp (some vs))
      ∧ List.Perm (SX.extractStockXVariants rand qp (some vs)) (vs.map SX.mkOffer2))
    ∧ (∀ (rand : ℕ → ℚ) (vs : List SX.Variant),
      List.Sorted SX.sizeLE (SX.extractStockXVariants3 rand (some vs))) := by
  refine ⟨fun rand qp vs => ⟨?_, ?_⟩, fun rand vs => ?_⟩
  · exact List.sorted_insertionSort SX.sizeLE (vs.map SX.mkOffer2)
  · exact List.perm_insertionSort SX.sizeLE (vs.map SX.mkOffer2)
  · exact List.sorted_insertionSort SX.sizeLE (vs.map SX.mkOffer3)

/-! ## Claim C3 -/

/-- C3 (amended, part_001 cascade): when every candidate before position
i fails, by a thrown fetch, a non-success status, a non-JSON body or a
parse failure, and the candidate at position i succeeds, the cascade
returns the payload of candidate i after fetching exactly i + 1
candidates, so no later candidate is called. -/
theorem c3_cascadeAdvances :
    ∀ (P : Type) (parse : String → Option P) (pre suf : List Kicks.FetchResult)
      (r : Kicks.FetchResult) (p : P),
      (∀ x ∈ pre, Spec.candidateFails parse x) →
      Spec.candidateSucceeds parse r p →
      Strict.tryCandidates parse (pre ++ r :: suf) = (some p, pre.length + 1) := by
  intro P parse pre suf r p hfail hsucc
  induction pre with
  | nil =>
    obtain ⟨b, rfl, hj, hp⟩ := hsucc
    simp [Strict.tryCandidates, hj, hp]
  | cons x pre ih =>
    have hx := hfail x (List.mem_cons_self x pre)
    have ih2 := ih fun y hy => hfail y (List.mem_cons_of_mem x hy)
    rcases hx with rfl | ⟨b, rfl⟩ | ⟨b, rfl, hb⟩ | ⟨b, rfl, hb, hpar⟩
    · simp [Strict.tryCandidates, Strict.bump, ih2]
    · simp [Strict.tryCandidates, Strict.bump, ih2]
    · simp [Strict.tryCandidates, Strict.bump, hb, ih2]
    · simp [Strict.tryCandidates, Strict.bump, hb, hpar, ih2]

/-- C3 witness: two failing candidates, a 500 status and an HTML page at
status 200, then a parseable body; the cascade returns its payload after
three fetches, leaving the fourth candidate uncalled. -/
theorem c3_cascadeAdvances_witness :
    Strict.tryCandidates Inputs.parse1
      [.resp false "err", .resp true "<html>", .resp true "[1]", .resp true "[1]"]
      = (some 42, 3) := by
  have h := c3_cascadeAdvances ℕ Inputs.parse1
    [.resp false "err", .resp true "<html>"] [.resp true "[1]"]
    (.resp true "[1]") 42 ?_ ?_
  · simpa using h
  · intro x hx
    rcases List.mem_cons.mp hx with rfl | hx2
    · exact Or.inr (Or.inl ⟨"err", rfl⟩)
    · rcases List.mem_singleton.mp hx2 with rfl
      exact Or.inr (Or.inr (Or.inl ⟨"<html>", rfl, by decide⟩))
  · exact ⟨"[1]", rfl, by decide, by decide⟩

/-- C3 counterexample: in the part_000 loop an HTML error page served
with status 200 is accepted by the loop after one fetch and then aborts
the whole resolution to the fallback, although the second candidate
would parse; a non-JSON body does not advance the cascade there. -/
theorem c3_part000_counterexample :
    P0.resolve000 Inputs.parse1 [.resp true "<html>", .resp true "[1]"]
      = (.fallback, 1)
    ∧ Inputs.parse1 "[1]" = some 42 := ⟨by decide, by decide⟩

/-! ## Claim C6 -/

theorem foldl_bestStep {α : Type} (f : α → ℕ) (l : List α) (b : α) :
    l.foldl (SX.bestStep f) (b, f b) =
      (Scan.firstMax f b l, f (Scan.firstMax f b l)) := by
  induction l generalizing b with
  | nil => rfl
  | cons x l ih =>
    rw [List.foldl_cons]
    unfold SX.bestStep Scan.firstMax
    by_cases h : f x > f b
    · simp only [h, if_true]
      exact ih x
    · simp only [h, if_false]
      exact ih b

theorem firstMax_split {α : Type} (f : α → ℕ) (l : List α) (b : α) :
    (Scan.firstMax f b l = b ∧ ∀ x ∈ l, f x ≤ f b)
    ∨ (∃ pre suf, l = pre ++ Scan.firstMax f b l :: suf
        ∧ f b < f (Scan.firstMax f b l)
        ∧ (∀ y ∈ pre, f y < f (Scan.firstMax f b l))
        ∧ (∀ y ∈ suf, f y ≤ f (Scan.firstMax f b l))) := by
  induction l generalizing b with
  | nil => exact Or.inl ⟨rfl, by simp⟩
  | cons x l ih =>
    show (Scan.firstMax f b (x :: l) = b ∧ _) ∨ _
    by_cases h : f x > f b
    · have hfm : Scan.firstMax f b (x :: l) = Scan.firstMax f x l := by
        rw [Scan.firstMax, if_pos h]
      rcases ih x with ⟨heq, hle⟩ | ⟨pre, suf, hsplit, hlt, hpre, hsuf⟩
      · refine Or.inr ⟨[], l, ?_, ?_, by simp, ?_⟩
        · rw [hfm, heq]
          rfl
        · rw [hfm, heq]
          exact h
        · intro y hy
          rw [hfm, heq]
          exact hle y hy
      · refine Or.inr ⟨x :: pre, suf, ?_, ?_, ?_, ?_⟩
        · conv_lhs => rw [hsplit]
          rw [hfm, List.cons_append]
        · rw [hfm]
          exact lt_trans h hlt
        · intro y hy
          rw [hfm]
          rcases List.mem_cons.mp hy with rfl | hy2
          · exact hlt
          · exact hpre y hy2
        · intro y hy
          rw [hfm]
          exact hsuf y hy
    · have hfm : Scan.firstMax f b (x :: l) = Scan.firstMax f b l := by
        rw [Scan.firstMax, if_neg h]
      rcases ih b with ⟨heq, hle⟩ | ⟨pre, suf, hsplit, hlt, hpre, hsuf⟩
      · refine Or.inl ⟨by rw [hfm, heq], ?_⟩
        intro y hy
        rcases List.mem_cons.mp hy with rfl | hy2
        · omega
        · exact hle y hy2
      · refine Or.inr ⟨x :: pre, suf, ?_, ?_, ?_, ?_⟩
        · conv_lhs => rw [hsplit]
          rw [hfm, List.cons_append]
        · rw [hfm]
          exact hlt
        · intro y hy
          rw [hfm]
          rcases List.mem_cons.mp hy with rfl | hy2
          · omega
          · exact hpre y hy2
        · intro y hy
          rw [hfm]
          exact hsuf y hy

theorem findBestMatch_eq_firstMax (targetSku : String) (p0 : SX.SXData)
    (ps : List SX.SXData) :
    SX.findBestMatch (p0 :: ps) targetSku =
      some (Scan.firstMax (fun p => SX.skuScore (SX.targetParts targetSku) p.sku)
        p0 ps) := by
  set f : SX.SXData → ℕ := fun p => SX.skuScore (SX.targetParts targetSku) p.sku with hf
  show some ((List.foldl (SX.bestStep f) (p0, 0) (p0 :: ps)).1) = _
  have h0 : SX.bestStep f (p0, 0) p0 = (p0, f p0) := by
    unfold SX.bestStep
    by_cases h : f p0 > 0
    · simp [h]
    · have : f p0 = 0 := by omega
      simp [h, this]
  rw [List.foldl_cons, h0, foldl_bestStep]

/-- C6 (amended): findBestMatch scans the results with the pure
segment-count scorer under strict improvement: the chosen candidate
scores maximally, every earlier candidate scores strictly less (so ties
go to the earlier candidate), and when every candidate scores zero the
first result is chosen; a nonempty result list always yields a choice.
findBestSkuMatch adds a title bonus to the score, see the
counterexample. -/
theorem c6_findBestMatch :
    ∀ (targetSku : String) (p0 : SX.SXData) (ps : List SX.SXData),
      ∃ pre c suf,
        p0 :: ps = pre ++ c :: suf
        ∧ SX.findBestMatch (p0 :: ps) targetSku = some c
        ∧ (∀ y ∈ pre, SX.skuScore (SX.targetParts targetSku) y.sku
            < SX.skuScore (SX.targetParts targetSku) c.sku)
        ∧ (∀ y ∈ suf, SX.skuScore (SX.targetParts targetSku) y.sku
            ≤ SX.skuScore (SX.targetParts targetSku) c.sku)
        ∧ ((∀ y ∈ p0 :: ps, SX.skuScore (SX.targetParts targetSku) y.sku = 0) →
            c = p0) := by
  intro targetSku p0 ps
  set f : SX.SXData → ℕ := fun p => SX.skuScore (SX.targetParts targetSku) p.sku with hf
  have hres := findBestMatch_eq_firstMax targetSku p0 ps
  rcases firstMax_split f ps p0 with ⟨heq, hle⟩ | ⟨pre, suf, hsplit, hlt, hpre, hsuf⟩
  · refine ⟨[], p0, ps, rfl, ?_, by simp, ?_, fun _ => rfl⟩
    · rw [hres, heq]
    · intro y hy
      exact heq ▸ hle y hy
  · refine ⟨p0 :: pre, Scan.firstMax f p0 ps, suf, ?_, hres, ?_, hsuf, ?_⟩
    · conv_lhs => rw [hsplit]
      rw [List.cons_append]
    · intro y hy
      rcases List.mem_cons.mp hy with rfl | hy2
      · exact hlt
      · exact hpre y hy2
    · intro hzero
      have hcmem : Scan.firstMax f p0 ps ∈ p0 :: ps := by
        have h1 : Scan.firstMax f p0 ps ∈ pre ++ Scan.firstMax f p0 ps :: suf :=
          List.mem_append_right pre (List.mem_cons_self _ _)
        rw [← hsplit] at h1
        exact List.mem_cons_of_mem p0 h1
      have h1 : f (Scan.firstMax f p0 ps) = 0 := hzero _ hcmem
      have h2 : f p0 = 0 := hzero p0 (List.mem_cons_self _ _)
      omega

/-- C6 witness: on a target none of the candidates matches, the scan
still picks the first candidate. -/
theorem c6_findBestMatch_witness :
    SX.findBestMatch [Inputs.pA, Inputs.pB] "zzz" = some Inputs.pA := by
  obtain ⟨pre, c, suf, hsplit, hres, hpre, hsuf, hzero⟩ :=
    c6_findBestMatch "zzz" Inputs.pA [Inputs.pB]
  rw [hres, hzero (by decide)]

/-- C6 counterexample: two candidates with equal segment-match counts;
findBestSkuMatch picks the later one because its title carries the anta
kai bonus, against the tie-to-the-earlier rule of the claim. -/
theorem c6_titleBonus_counterexample :
    SX.findBestSkuMatch [Inputs.pA, Inputs.pB] "ABC" = some Inputs.pB
    ∧ SX.skuScore (SX.targetParts "ABC") Inputs.pA.sku
        = SX.skuScore (SX.targetParts "ABC") Inputs.pB.sku
    ∧ Inputs.pB ≠ Inputs.pA := ⟨by decide, by decide, by decide⟩

/-! ## Claim C7 -/

/-- C7 (amended): normalization is deterministic only up to its ambient
inputs. The part_000 normalizer yields identical products at any two
capture times whenever the payload carries a truthy updated_at field, and
the kicksdb.js normalizer yields identical products under any two clocks
and random streams whenever the payload carries a truthy date and a
nonempty variants array. A missing date draws the call-time clock and
missing variants draw the unseeded random stream directly, so neither
effect sits behind a seedable boundary, see the counterexample. -/
theorem c7_deterministic :
    (∀ (d : Kicks.Payload) (sku : String) (now1 now2 : ℤ),
      Js.truthy d.updated_at = true →
      P0.normalizeKicksDbResponse d sku now1 = P0.normalizeKicksDbResponse d sku now2)
    ∧ (∀ (data : SX.SXData) (sku : String) (now1 now2 : ℤ) (r1 r2 : ℕ → ℚ)
        (vs : List SX.Variant),
        data.variants = some vs → vs ≠ [] →
        Js.strTruthy data.updated_at = true →
        SX.normalizeStockXResponse data sku now1 r1 =
          SX.normalizeStockXResponse data sku now2 r2) := by
  constructor
  · intro d sku now1 now2 h
    rcases hu : d.updated_at with _ | v
    · rw [hu] at h
      simp [Js.truthy] at h
    · rw [hu] at h
      simp only [Js.truthy] at h
      unfold P0.normalizeKicksDbResponse
      rw [hu]
      simp [Js.orD, h]
  · intro data sku now1 now2 r1 r2 vs hv hne h
    rcases hu : data.updated_at with _ | s
    · rw [hu] at h
      simp [Js.strTruthy] at h
    · rw [hu] at h
      simp only [Js.strTruthy, bne_iff_ne, ne_eq] at h
      unfold SX.normalizeStockXResponse SX.extractSizesFromStockXVariants
      rw [hu, hv]
      have hmap : (vs.map SX.mkOffer1).isEmpty = false := by
        cases vs with
        | nil => exact absurd rfl hne
        | cons a l => rfl
      simp [Js.strOr, h, hmap]

/-- C7 witness: determinism instantiated at two distinct clocks and
random streams on dated payloads with sizes. -/
theorem c7_deterministic_witness :
    P0.normalizeKicksDbResponse Inputs.dDated "a" 0 =
      P0.normalizeKicksDbResponse Inputs.dDated "a" 99
    ∧ SX.normalizeStockXResponse Inputs.sx0 "a" 0 Inputs.rand0 =
        SX.normalizeStockXResponse Inputs.sx0 "a" 99 (fun _ => 1 / 2) :=
  ⟨c7_deterministic.1 Inputs.dDated "a" 0 99 (by decide),
   c7_deterministic.2 Inputs.sx0 "a" 0 99 Inputs.rand0 (fun _ => 1 / 2)
     [Inputs.v1203] rfl (by simp) (by decide)⟩

/-- C7 counterexample: on a payload with sizes but no date field, two
calls of the part_000 normalizer at different capture times give
different products, differing in lastUpdated, although no randomized
size synthesis is involved. -/
theorem c7_captureTime_counterexample :
    (P0.normalizeKicksDbResponse Inputs.dTimed "a" 0).lastUpdated =
      .vstr (Js.isoString 0)
    ∧ (P0.normalizeKicksDbResponse Inputs.dTimed "a" 1).lastUpdated =
      .vstr (Js.isoString 1)
    ∧ P0.normalizeKicksDbResponse Inputs.dTimed "a" 0 ≠
        P0.normalizeKicksDbResponse Inputs.dTimed "a" 1 :=
  ⟨by decide, by decide, by decide⟩

/-! ## Claim C8 -/

theorem afterCache1_ok (sku market : String) (cache : SX.Cache) (now : ℤ)
    (rand : ℕ → ℚ) (k : String) (fetch : SX.Fetch1) :
    (SX.afterCache1 sku market cache now rand (some k) fetch).1.statusCode = 200 := by
  unfold SX.afterCache1
  rcases fetch with _ | ⟨ok, json⟩
  · rfl
  · rcases ok
    · rfl
    · rcases json with _ | j
      · rfl
      · rcases hd : j.data with _ | l
        · simp [hd]
        · rcases l with _ | ⟨d, ds⟩
          · simp [hd]
          · simp [hd]

/-- C8: with a valid cache entry under the requested key, the first
kicksdb.js handler answers 200 with the cached product whether or not the
credential is configured; conversely a 500 answer implies the credential
is missing AND no valid cache entry existed, because the cache lookup
precedes the credential check. -/
theorem c8_cacheBeforeCredential :
    (∀ (ev : SX.Request1) (cache : SX.Cache) (now : ℤ) (rand : ℕ → ℚ)
        (apiKey : Option String) (fetch : SX.Fetch1) (e : SX.CacheEntry),
      ev.httpMethod = "GET" → Js.strTruthy ev.sku = true →
      SX.cacheLookup cache
        (SX.getCacheKey (ev.sku.getD "") (ev.market.getD "US")) = some e →
      SX.isCacheValid now (some e) = true →
      SX.handler1 ev cache now rand apiKey fetch = (⟨200, .product e.data⟩, cache))
    ∧ (∀ (ev : SX.Request1) (cache : SX.Cache) (now : ℤ) (rand : ℕ → ℚ)
        (apiKey : Option String) (fetch : SX.Fetch1),
      (SX.handler1 ev cache now rand apiKey fetch).1.statusCode = 500 →
      apiKey = none
      ∧ SX.isCacheValid now (SX.cacheLookup cache
          (SX.getCacheKey (ev.sku.getD "") (ev.market.getD "US"))) = false) := by
  constructor
  · intro ev cache now rand apiKey fetch e hm hsku hl hv
    unfold SX.handler1
    rw [hm]
    simp only [reduceIte, ne_eq, not_true_eq_false, if_false, hsku, not_false_eq_true,
      Bool.true_eq_false, if_true]
    simp [hl, hv]
  · intro ev cache now rand apiKey fetch h
    unfold SX.handler1 at h
    by_cases h1 : ev.httpMethod = "OPTIONS"
    · rw [if_pos h1] at h
      exact absurd h (by simp)
    · rw [if_neg h1] at h
      by_cases h2 : ev.httpMethod ≠ "GET"
      · rw [if_pos h2] at h
        exact absurd h (by simp)
      · rw [if_neg h2] at h
        by_cases h3 : ¬ Js.strTruthy ev.sku = true
        · rw [if_pos (by simpa using h3)] at h
          exact absurd h (by simp)
        · rw [if_neg (by simpa using h3)] at h
          split at h
          · rename_i e heq
            split at h
            · exact absurd h (by simp)
            · rename_i hv
              rcases apiKey with _ | k
              · exact ⟨rfl, by rw [heq]; simpa using hv⟩
              · rw [afterCache1_ok] at h
                exact absurd h (by decide)
          · rename_i heq
            rcases apiKey with _ | k
            · exact ⟨rfl, by rw [heq]; rfl⟩
            · rw [afterCache1_ok] at h
              exact absurd h (by decide)

/-- C8 witness: a valid cache entry is served with 200 although the
credential is absent. -/
theorem c8_cacheBeforeCredential_witness :
    SX.handler1 Inputs.req0 Inputs.cache0 59999 Inputs.rand0 none .threw
      = (⟨200, .product Inputs.prod0⟩, Inputs.cache0) :=
  c8_cacheBeforeCredential.1 Inputs.req0 Inputs.cache0 59999 Inputs.rand0 none
    .threw Inputs.entry0 rfl (by decide) (by decide) (by decide)
